import Mathlib

/-!
Verification of the query-admission filter and request dispatch of the
GitHub-aware assistant (src/main.py).

Strings are modelled as lists of Unicode code points (`List Nat`), with the
ASCII fragment of Python string semantics: `str.lower` maps the code points
65..90 to 97..122 and fixes everything else, the regex class for whitespace
is the six ASCII whitespace characters, and the normalization regex keeps
exactly lowercase ASCII letters, digits and ASCII whitespace.
-/

/-- A Python string, modelled as its list of Unicode code points. -/
abbrev PyStr := List Nat

/-- Code points of a Lean string literal, used to write concrete inputs. -/
def String.toPy (s : String) : PyStr :=
  s.toList.map Char.toNat

/-- ASCII fragment of Python `str.lower` on one code point. -/
def pyCharLower (c : Nat) : Nat :=
  if 65 ≤ c ∧ c ≤ 90 then c + 32 else c

/-- `query.lower()`: code-point-wise lowercasing. -/
def pyLower (s : PyStr) : PyStr :=
  s.map pyCharLower

/-- ASCII whitespace: space, tab, newline, carriage return, vertical tab,
form feed.  These are the characters the regex class matches and the
separators of `str.split()` on ASCII input. -/
def pyIsSpace (c : Nat) : Bool :=
  c == 32 || c == 9 || c == 10 || c == 13 || c == 11 || c == 12

/-- The character class kept by the normalization regex of line 80 of
src/main.py: lowercase ASCII letters, digits, whitespace.  All other
characters are deleted. -/
def keepChar (c : Nat) : Bool :=
  (97 ≤ c && c ≤ 122) || (48 ≤ c && c ≤ 57) || pyIsSpace c

/-- The substitution on line 80 of src/main.py: delete every character that
is not a lowercase ASCII letter, a digit, or whitespace. -/
def normalizeQuery (s : PyStr) : PyStr :=
  s.filter keepChar

/-- Python `str.split()` with no argument: split on runs of whitespace,
discarding empty pieces. -/
def pySplit (s : PyStr) : List PyStr :=
  (s.splitOnP pyIsSpace).filter (fun w => !w.isEmpty)

/-- Python substring containment `needle in haystack`: some contiguous
run of `haystack` equals `needle`. -/
def pySubstring (needle : PyStr) : PyStr → Bool
  | [] => needle.isEmpty
  | c :: rest => needle.isPrefixOf (c :: rest) || pySubstring needle rest

/-- `is_query_allowed` of src/main.py lines 68-102.  The allow-list set is
modelled as a list; the verdict only tests membership and existence, so it
does not depend on order or duplication.  The three sequential
return-True checks of the source become a short-circuit disjunction. -/
def is_query_allowed (query : PyStr) (allowed_commands : List PyStr) : Bool :=
  if allowed_commands.isEmpty then false
  else
    let query_lower := pyLower query
    let normalized_query := normalizeQuery query_lower
    let normalized_query_words := pySplit normalized_query
    allowed_commands.any (fun command => command.contains 32 && pySubstring command query_lower)
    || normalized_query_words.any (fun word => allowed_commands.contains word)
    || allowed_commands.contains normalized_query

/-- Python `str.strip()`: remove leading and trailing whitespace. -/
def pyStrip (s : PyStr) : PyStr :=
  ((s.dropWhile pyIsSpace).reverse.dropWhile pyIsSpace).reverse

/-- The external allowed-commands file as the loader observes it:
`absent` when `os.path.exists` is false; `readable lines` when iterating
the open file yields exactly `lines` and then ends normally; `failsAfter
lines` when iterating raises an exception (I/O or decode error) after
having yielded `lines` — a failure at `open` itself is `failsAfter []`,
since no line was yielded before the exception. -/
inductive Resource where
  | absent : Resource
  | readable : List PyStr → Resource
  | failsAfter : List PyStr → Resource
deriving DecidableEq

/-- `load_allowed_commands` of src/main.py lines 47-66.  Each yielded line
is stripped, lowercased and added when non-empty; the result set is
modelled as a list up to membership.  The `try` of line 54 encloses the
whole read loop and its `except` branch returns the set accumulated so
far, so a mid-read failure yields the commands built from the lines
already yielded — not an empty set.  The missing-file branch returns the
still-empty set. -/
def load_allowed_commands (resource : Resource) : List PyStr :=
  match resource with
  | .absent => []
  | .readable lines =>
      (lines.map (fun line => pyLower (pyStrip line))).filter (fun c => !c.isEmpty)
  | .failsAfter lines =>
      (lines.map (fun line => pyLower (pyStrip line))).filter (fun c => !c.isEmpty)

/-- An HTTP reply of the handler: `ok body` is status 200 with the JSON
object whose single field response holds `body`; `error status detail` is
an HTTPException with that status code and detail string. -/
inductive HttpReply where
  | ok (body : PyStr) : HttpReply
  | error (status : Nat) (detail : PyStr) : HttpReply
deriving DecidableEq

/-- Result of one request to the handler, instrumented with whether the
backend (`process_github_query`) was invoked. -/
structure Outcome where
  reply : HttpReply
  backendCalled : Bool
deriving DecidableEq

/-- Process environment of the handler: the observed state of
allowed_commands.txt, the GITHUB_TOKEN environment variable, and the
backend call, abstracted as a function that either returns a response
string or fails (the exception caught on lines 248-250 of src/main.py). -/
structure Env where
  allowedResource : Resource
  githubToken : Option PyStr
  backend : PyStr → Except PyStr PyStr

/-- The fixed rejection body of line 236 of src/main.py. -/
def notAllowedMsg : PyStr := "Command not allowed.".toPy

/-- The detail of the HTTP 500 raised on line 241 when GITHUB_TOKEN is
absent. -/
def noTokenDetail : PyStr :=
  "GitHub interaction not configured. Please set GITHUB_TOKEN.".toPy

/-- The detail of the HTTP 500 raised on line 250 when the backend call
fails. -/
def backendErrorDetail : PyStr :=
  "An error occurred while processing your request. Please try again later or refine your query.".toPy

/-- `chat_endpoint` of src/main.py lines 220-250: reload the allow-list,
filter, then either reject with the fixed body, fail with 500 when the
token is missing, or invoke the backend and map its failure to a generic
500. -/
def chat_endpoint (env : Env) (message : PyStr) : Outcome :=
  let allowed_commands := load_allowed_commands env.allowedResource
  if !(is_query_allowed message allowed_commands) then
    ⟨.ok notAllowedMsg, false⟩
  else
    match env.githubToken with
    | none => ⟨.error 500 noTokenDetail, false⟩
    | some _ =>
      match env.backend message with
      | .ok r => ⟨.ok r, true⟩
      | .error _ => ⟨.error 500 backendErrorDetail, true⟩

/-- A sequence of independent requests served by the process: the handler
holds no mutable state, so serving is a map. -/
def serve (env : Env) (messages : List PyStr) : List Outcome :=
  messages.map (chat_endpoint env)

/-- One parsed item of the GitHub repository-search response, with the
fields read on line 156 of src/main.py. -/
structure Repo where
  full_name : PyStr
  html_url : PyStr
  stargazers_count : Nat
  description : Option PyStr
deriving DecidableEq

/-- The stopword list of line 150 of src/main.py. -/
def stop_words : List PyStr :=
  ["repository".toPy, "repo".toPy, "project".toPy, "github".toPy,
   "search".toPy, "for".toPy]

/-- The search-term extraction of line 150: the first whitespace-separated
word of the lowercased query that is not a stopword, defaulting to the
whole lowercased query. -/
def searchTermOf (query_lower : PyStr) : PyStr :=
  ((pySplit query_lower).find? (fun word => !stop_words.contains word)).getD query_lower

/-- Rendering of the description field: Python renders a missing or empty
description as the fixed fallback text. -/
def descriptionText : Option PyStr → PyStr
  | none => "No description".toPy
  | some d => if d.isEmpty then "No description".toPy else d

/-- One formatted search-result line of line 156 of src/main.py. -/
def repoLine (r : Repo) : PyStr :=
  "- ".toPy ++ r.full_name ++ ": ".toPy ++ r.html_url ++ " (Stars: ".toPy
    ++ (Nat.repr r.stargazers_count).toPy ++ ") - ".toPy
    ++ descriptionText r.description

/-- The header line of line 151, with the search term between single
quotes (code point 39). -/
def searchHeader (term : PyStr) : PyStr :=
  "Searching GitHub for repositories related to ".toPy ++ [39] ++ term
    ++ [39] ++ "...".toPy

def foundMsg : PyStr := "Found these top repositories:".toPy

def noReposMsg : PyStr := "No repositories found for your query.".toPy

/-- `process_github_query` of src/main.py lines 138-216.  Rule 1
(repository search) is modelled in full; the network call
`search_github_repositories` is abstracted as `search`, returning the
parsed item list, and the remaining regex-driven rules (file-content
fetch, directory listing) together with the fallback message are
abstracted as `rest`.  The joined response uses the newline code point
10 as separator. -/
def process_github_query (search : PyStr → List Repo) (rest : PyStr → PyStr)
    (query : PyStr) : PyStr :=
  let query_lower := pyLower query
  if pySubstring "repository".toPy query_lower
      || pySubstring "repo".toPy query_lower
      || pySubstring "project".toPy query_lower then
    let search_term := searchTermOf query_lower
    let repos := search search_term
    let response_parts :=
      searchHeader search_term ::
        (if repos.isEmpty then [noReposMsg]
         else foundMsg :: (repos.take 5).map repoLine)
    List.intercalate [10] response_parts
  else rest query

/-! ### Basic lemmas about the embedded operations -/

theorem pySubstring_iff (needle haystack : PyStr) :
    pySubstring needle haystack = true ↔ needle <:+: haystack := by
  induction haystack with
  | nil => simp [pySubstring, List.isEmpty_iff, List.infix_nil]
  | cons c rest ih =>
    simp [pySubstring, List.infix_cons_iff, List.isPrefixOf_iff_prefix, ih]

theorem pyCharLower_idem (c : Nat) : pyCharLower (pyCharLower c) = pyCharLower c := by
  by_cases h : 65 ≤ c ∧ c ≤ 90
  · simp only [pyCharLower, if_pos h]
    rw [if_neg (by omega)]
  · simp only [pyCharLower, if_neg h]

theorem pyLower_idem (s : PyStr) : pyLower (pyLower s) = pyLower s := by
  unfold pyLower
  rw [List.map_map]
  exact List.map_congr_left (fun a _ => pyCharLower_idem a)

theorem is_query_allowed_nil (query : PyStr) : is_query_allowed query [] = false := rfl

/-- Characterization of the filter verdict for a non-empty allow-list: the
three checks of src/main.py lines 84-99, as propositions. -/
theorem is_query_allowed_iff (query : PyStr) (allowed : List PyStr) (h : allowed ≠ []) :
    is_query_allowed query allowed = true ↔
      (∃ command ∈ allowed, 32 ∈ command ∧ command <:+: pyLower query)
      ∨ (∃ word ∈ pySplit (normalizeQuery (pyLower query)), word ∈ allowed)
      ∨ normalizeQuery (pyLower query) ∈ allowed := by
  unfold is_query_allowed
  rw [if_neg (by simp [List.isEmpty_iff, h])]
  simp [List.any_eq_true, pySubstring_iff, List.contains, List.elem_iff, or_assoc]

theorem not_contains_eq_decide (l : List PyStr) (w : PyStr) :
    (!l.contains w) = decide (w ∉ l) := by
  by_cases h : w ∈ l
  · have hc : l.contains w = true := List.elem_iff.mpr h
    simp [hc, h]
  · have hc : l.contains w = false := by
      rw [← Bool.not_eq_true]
      intro hc
      exact h (List.elem_iff.mp hc)
    simp [hc, h]

theorem find?_eq_filter_head {α : Type} (p : α → Bool) (l : List α) :
    l.find? p = (l.filter p).head? := by
  induction l with
  | nil => rfl
  | cons a t ih =>
    by_cases h : p a = true
    · rw [List.find?_cons_of_pos _ h, List.filter_cons_of_pos h]
      rfl
    · rw [List.find?_cons_of_neg _ (by simp [h]),
        List.filter_cons_of_neg (by simp [h]), ih]

/-! ### Claims -/

/-- C1: for every query and non-empty allow-list, the verdict is true iff
some space-containing member occurs as a contiguous substring of the
lowercased query, or some whitespace token of the normalization of the
lowercased query is a member, or the whole normalized string is a member;
otherwise the verdict is false. -/
theorem is_query_allowed_three_tier (query : PyStr) (allowed : List PyStr)
    (h : allowed ≠ []) :
    is_query_allowed query allowed = true ↔
      (∃ command ∈ allowed, 32 ∈ command ∧ command <:+: pyLower query)
      ∨ (∃ word ∈ pySplit (normalizeQuery (pyLower query)), word ∈ allowed)
      ∨ normalizeQuery (pyLower query) ∈ allowed :=
  is_query_allowed_iff query allowed h

theorem is_query_allowed_three_tier_witness :
    is_query_allowed "What about python?".toPy ["python".toPy] = true ↔
      (∃ command ∈ ["python".toPy],
          32 ∈ command ∧ command <:+: pyLower "What about python?".toPy)
      ∨ (∃ word ∈ pySplit (normalizeQuery (pyLower "What about python?".toPy)),
          word ∈ ["python".toPy])
      ∨ normalizeQuery (pyLower "What about python?".toPy) ∈ ["python".toPy] :=
  is_query_allowed_three_tier "What about python?".toPy ["python".toPy] (by decide)

/-- C2: an empty allow-list rejects every query, the empty query
included. -/
theorem empty_allowlist_rejects_all (query : PyStr) :
    is_query_allowed query [] = false := rfl

/-- C3: the verdict is case-insensitive in the query — lowercasing the
query first does not change it — and both the uppercase and the lowercase
spelling of python are admitted by the singleton allow-list python. -/
theorem is_query_allowed_case_insensitive :
    (∀ (query : PyStr) (allowed : List PyStr),
        is_query_allowed (pyLower query) allowed = is_query_allowed query allowed)
    ∧ is_query_allowed "PYTHON".toPy ["python".toPy] = true
    ∧ is_query_allowed "python".toPy ["python".toPy] = true := by
  refine ⟨fun query allowed => ?_, by decide, by decide⟩
  simp only [is_query_allowed, pyLower_idem]

/-- C4: a query containing no ASCII letter, digit or whitespace character
is rejected by every allow-list not containing the empty string: it
normalizes to an empty token set and an empty normalized string. -/
theorem punctuation_only_rejected (query : PyStr) (allowed : List PyStr)
    (hq : ∀ c ∈ query, ¬(65 ≤ c ∧ c ≤ 90) ∧ ¬(97 ≤ c ∧ c ≤ 122)
        ∧ ¬(48 ≤ c ∧ c ≤ 57) ∧ pyIsSpace c = false)
    (hempty : [] ∉ allowed) :
    is_query_allowed query allowed = false := by
  rcases eq_or_ne allowed [] with rfl | hA
  · exact is_query_allowed_nil query
  have hlow : pyLower query = query := by
    have h1 : query.map pyCharLower = query.map id :=
      List.map_congr_left (fun c hc => by
        unfold pyCharLower
        rw [if_neg (hq c hc).1]
        rfl)
    rw [pyLower, h1, List.map_id]
  have hnorm : normalizeQuery query = [] := by
    rw [normalizeQuery, List.filter_eq_nil_iff]
    intro c hc
    obtain ⟨-, h2, h3, h4⟩ := hq c hc
    simp [keepChar, h4]
    omega
  rw [Bool.eq_false_iff]
  rw [Ne, is_query_allowed_iff query allowed hA, hlow, hnorm]
  rintro (⟨command, hcmd, h32, hinf⟩ | ⟨word, hword, -⟩ | habs)
  · have h32q : (32 : Nat) ∈ query := hinf.subset h32
    have := (hq 32 h32q).2.2.2
    simp [pyIsSpace] at this
  · have hnilsplit : pySplit ([] : PyStr) = [] := rfl
    rw [hnilsplit] at hword
    exact absurd hword (List.not_mem_nil word)
  · exact hempty habs

theorem punctuation_only_rejected_witness :
    is_query_allowed "?!?".toPy ["python".toPy] = false :=
  punctuation_only_rejected "?!?".toPy ["python".toPy] (by decide) (by decide)

/-- C5: hyphenation defeats phrase matching but not token matching — the
hyphenated query misses the two-word phrase, while the plain query matches
the single-token entry. -/
theorem hyphenation_phrase_vs_token :
    is_query_allowed "web-scraping is fun".toPy ["web scraping".toPy] = false
    ∧ is_query_allowed "web scraping".toPy ["scraping".toPy] = true :=
  ⟨by decide, by decide⟩

/-- C6 counterexample: the claim says any read failure yields an empty
set, but when the read fails after the line python was already yielded
the except branch returns the accumulated set, which holds python and is
not empty. -/
theorem load_allowed_commands_midread_counterexample :
    load_allowed_commands (.failsAfter ["python".toPy]) = ["python".toPy]
    ∧ load_allowed_commands (.failsAfter ["python".toPy]) ≠ [] :=
  ⟨by decide, by decide⟩

/-- C6 amended: the loader trims, lowercases and keeps each non-empty
yielded line; an absent resource, or a read failure before any line is
read, yields the empty set; a mid-read failure yields the set accumulated
from the lines read so far.  In every case the failure is absorbed, never
propagated. -/
theorem load_allowed_commands_spec :
    load_allowed_commands .absent = []
    ∧ load_allowed_commands (.failsAfter []) = []
    ∧ ∀ (lines : List PyStr) (c : PyStr),
        (c ∈ load_allowed_commands (.readable lines) ↔
          (∃ line ∈ lines, pyLower (pyStrip line) = c) ∧ c ≠ [])
        ∧ (c ∈ load_allowed_commands (.failsAfter lines) ↔
          (∃ line ∈ lines, pyLower (pyStrip line) = c) ∧ c ≠ []) := by
  refine ⟨rfl, rfl, fun lines c => ⟨?_, ?_⟩⟩
  all_goals
    simp [load_allowed_commands, List.mem_filter, List.mem_map,
      List.isEmpty_eq_false]

/-- C7: a rejected request is answered with HTTP 200 and the fixed
rejection body, and the backend is not invoked. -/
theorem rejected_request_response (env : Env) (message : PyStr)
    (h : is_query_allowed message (load_allowed_commands env.allowedResource) = false) :
    chat_endpoint env message = ⟨.ok notAllowedMsg, false⟩ := by
  unfold chat_endpoint
  simp [h]

theorem rejected_request_response_witness :
    chat_endpoint ⟨.readable ["python".toPy, "github".toPy], none, fun q => .ok q⟩
        "quantum knitting".toPy = ⟨.ok notAllowedMsg, false⟩ :=
  rejected_request_response
    ⟨.readable ["python".toPy, "github".toPy], none, fun q => .ok q⟩
    "quantum knitting".toPy (by decide)

/-- C8: with GITHUB_TOKEN absent, every admitted query is answered with an
HTTP 500 carrying the generic detail (no backend call), every rejected
query still gets the normal 200 rejection payload, and the handler keeps
serving later requests unchanged. -/
theorem missing_token_degrades (env : Env) (message : PyStr)
    (htok : env.githubToken = none) :
    (is_query_allowed message (load_allowed_commands env.allowedResource) = true →
        chat_endpoint env message = ⟨.error 500 noTokenDetail, false⟩)
    ∧ (is_query_allowed message (load_allowed_commands env.allowedResource) = false →
        chat_endpoint env message = ⟨.ok notAllowedMsg, false⟩)
    ∧ ∀ (previous : List PyStr),
        serve env (previous ++ [message])
          = serve env previous ++ [chat_endpoint env message] := by
  refine ⟨fun h => ?_, fun h => ?_, fun previous => ?_⟩
  · unfold chat_endpoint
    simp [h, htok]
  · unfold chat_endpoint
    simp [h]
  · simp [serve]

theorem missing_token_degrades_witness :
    chat_endpoint ⟨.readable ["python".toPy], none, fun q => .ok q⟩ "python".toPy
      = ⟨.error 500 noTokenDetail, false⟩ :=
  (missing_token_degrades ⟨.readable ["python".toPy], none, fun q => .ok q⟩
    "python".toPy rfl).1 (by decide)

/-- C10: the verdict is monotone in the allow-list: enlarging the
allow-list never turns an admitted query into a rejected one. -/
theorem is_query_allowed_monotone (query : PyStr) (A B : List PyStr)
    (hsub : ∀ x ∈ A, x ∈ B) (h : is_query_allowed query A = true) :
    is_query_allowed query B = true := by
  have hA : A ≠ [] := by
    rintro rfl
    rw [is_query_allowed_nil] at h
    exact Bool.false_ne_true h
  rw [is_query_allowed_iff query A hA] at h
  obtain ⟨command, hcmd, hsp, hinf⟩ | ⟨word, hw, hwA⟩ | hnA := h
  · exact (is_query_allowed_iff query B (List.ne_nil_of_mem (hsub _ hcmd))).mpr
      (Or.inl ⟨command, hsub _ hcmd, hsp, hinf⟩)
  · exact (is_query_allowed_iff query B (List.ne_nil_of_mem (hsub _ hwA))).mpr
      (Or.inr (Or.inl ⟨word, hw, hsub _ hwA⟩))
  · exact (is_query_allowed_iff query B (List.ne_nil_of_mem (hsub _ hnA))).mpr
      (Or.inr (Or.inr (hsub _ hnA)))

theorem is_query_allowed_monotone_witness :
    is_query_allowed "python".toPy ["python".toPy, "github".toPy] = true :=
  is_query_allowed_monotone "python".toPy ["python".toPy]
    ["python".toPy, "github".toPy] (by decide) (by decide)

/-- C9: the repository-search intent is checked before the other intents
and fires exactly when repository, repo or project occurs in the
lowercased query; when it fires, the response is the header followed by
either the no-results line or the found line and the formatted lines of
the first five search results; the search term is the first whitespace
token of the lowercased query outside the stopword set, falling back to
the whole lowercased query. -/
theorem repository_search_rule (search : PyStr → List Repo)
    (rest : PyStr → PyStr) (query : PyStr) :
    (("repository".toPy <:+: pyLower query ∨ "repo".toPy <:+: pyLower query
        ∨ "project".toPy <:+: pyLower query) →
      process_github_query search rest query =
        List.intercalate [10]
          (searchHeader (searchTermOf (pyLower query)) ::
            (if (search (searchTermOf (pyLower query))).isEmpty then [noReposMsg]
             else foundMsg ::
               ((search (searchTermOf (pyLower query))).take 5).map repoLine)))
    ∧ (¬("repository".toPy <:+: pyLower query ∨ "repo".toPy <:+: pyLower query
        ∨ "project".toPy <:+: pyLower query) →
      process_github_query search rest query = rest query)
    ∧ searchTermOf (pyLower query) =
        (((pySplit (pyLower query)).filter
            (fun word => decide (word ∉ stop_words))).head?).getD (pyLower query) := by
  have hb : (pySubstring "repository".toPy (pyLower query)
        || pySubstring "repo".toPy (pyLower query)
        || pySubstring "project".toPy (pyLower query)) = true ↔
      ("repository".toPy <:+: pyLower query ∨ "repo".toPy <:+: pyLower query
        ∨ "project".toPy <:+: pyLower query) := by
    simp [pySubstring_iff, or_assoc]
  refine ⟨fun h => ?_, fun h => ?_, ?_⟩
  · unfold process_github_query
    rw [if_pos (hb.mpr h)]
  · unfold process_github_query
    rw [if_neg (fun hc => h (hb.mp hc))]
  · rw [searchTermOf, find?_eq_filter_head,
      show (fun word => !stop_words.contains word)
          = (fun word => decide (word ∉ stop_words)) from
        funext (not_contains_eq_decide stop_words)]

theorem repository_search_rule_witness :
    process_github_query (fun _ => []) (fun q => q)
        "find python repositories".toPy =
      List.intercalate [10]
        (searchHeader (searchTermOf (pyLower "find python repositories".toPy)) ::
          (if (([] : List Repo)).isEmpty then [noReposMsg]
           else foundMsg :: (([] : List Repo).take 5).map repoLine)) :=
  (repository_search_rule (fun _ => []) (fun q => q)
    "find python repositories".toPy).1 (by decide)
